import Mathlib

/-!
Verification of the cursor-wrap hang-detection supervisor.

The Go sources are embedded shallowly: wall-clock instants and durations
are integers counting nanoseconds (Go `time.Time` / `time.Duration`),
strings are byte-exact Lean strings, and the open-call map keyed by
`call_id` is an association list with unique keys. The outcomes of the
`json.Unmarshal` calls the monitor performs on an event's raw bytes are
carried on the event as `Option` payloads (`none` models a failed
unmarshal), mirroring the two-pass parse of the source.
-/

namespace CursorWrap

/-- Verdict mirrors monitor.Verdict: OK, Waiting, or Hang. -/
inductive Verdict where
  | ok
  | waiting
  | hang
deriving DecidableEq

/-- ToolCallInfo mirrors events.ToolCallInfo: the result of
ParseToolCallInfo on the nested tool_call object. -/
structure ToolCallInfo where
  toolType : String
  command : String
  timeoutMS : Int
  path : String
deriving DecidableEq

/-- StartedPayload carries the fields of events.ToolCallStarted that the
monitor uses, together with the outcome of ParseToolCallInfo on its
tool_call field (none when that parse fails). -/
structure StartedPayload where
  callId : String
  modelCallId : String
  toolInfo : Option ToolCallInfo
deriving DecidableEq

/-- AnnotatedEvent mirrors events.AnnotatedEvent: receive time, verbatim
raw line, the first-pass discriminator parse (type and subtype, empty
string when absent), and the outcomes of the deep unmarshals the monitor
performs on the raw bytes. -/
structure AnnotatedEvent where
  recvTime : Int
  raw : String
  type : String
  subtype : String
  initPayload : Option String
  startedPayload : Option StartedPayload
  completedPayload : Option String
deriving DecidableEq

/-- OpenToolCall mirrors monitor.OpenToolCall. -/
structure OpenToolCall where
  callId : String
  modelCallId : String
  startedAt : Int
  timeoutMS : Int
  command : String
deriving DecidableEq

/-- OpenCallDetail mirrors monitor.OpenCallDetail. -/
structure OpenCallDetail where
  callId : String
  command : String
  elapsedMS : Int
  timeoutMS : Int
deriving DecidableEq

/-- Reason mirrors monitor.Reason. -/
structure Reason where
  idleSilenceMS : Int
  openCallCount : Nat
  lastEventType : String
  openCalls : List OpenCallDetail
deriving DecidableEq

/-- State mirrors monitor.State. -/
structure State where
  openCalls : List OpenToolCall
  lastEventAt : Int
  lastEvType : String
  sessionDone : Bool
  sessionID : String
deriving DecidableEq

/-- Monitor mirrors monitor.Monitor: the two thresholds and the state.
The injectable clock is passed explicitly where the source reads it. -/
structure Monitor where
  idleTimeout : Int
  toolGrace : Int
  state : State
deriving DecidableEq

/-- newMonitor mirrors monitor.NewMonitor: empty open-call table, and
lastEventAt initialised to the clock's value at construction. -/
def newMonitor (idleTimeout toolGrace now0 : Int) : Monitor :=
  { idleTimeout := idleTimeout
    toolGrace := toolGrace
    state :=
      { openCalls := []
        lastEventAt := now0
        lastEvType := ""
        sessionDone := false
        sessionID := "" } }

/-- millis mirrors time.Duration.Milliseconds: nanoseconds divided by
1e6, truncating toward zero as Go integer division does. -/
def millis (d : Int) : Int := d.tdiv 1000000

/-- evTypeString mirrors the last-event-type computation in
Monitor.ProcessEvent: "type" when the subtype is empty, otherwise
"type/subtype". -/
def evTypeString (ev : AnnotatedEvent) : String :=
  if ev.subtype ≠ "" then ev.type ++ "/" ++ ev.subtype else ev.type

/-- insertCall mirrors Go map assignment keyed by call_id: replace an
existing entry with the same key, otherwise add the entry. -/
def insertCall (calls : List OpenToolCall) (oc : OpenToolCall) : List OpenToolCall :=
  if calls.any (fun c => c.callId == oc.callId) then
    calls.map (fun c => if c.callId == oc.callId then oc else c)
  else calls ++ [oc]

/-- removeCall mirrors Go map delete keyed by call_id (a no-op when the
key is absent). -/
def removeCall (calls : List OpenToolCall) (cid : String) : List OpenToolCall :=
  calls.filter (fun c => !(c.callId == cid))

/-- openCallFor mirrors the OpenToolCall construction in the
tool_call/started branch of Monitor.ProcessEvent: command and timeout
are populated only when ParseToolCallInfo succeeded with a
shellToolCall; otherwise they stay at their zero values. -/
def openCallFor (p : StartedPayload) (recvTime : Int) : OpenToolCall :=
  match p.toolInfo with
  | some info =>
    if info.toolType = "shellToolCall" then
      { callId := p.callId
        modelCallId := p.modelCallId
        startedAt := recvTime
        timeoutMS := info.timeoutMS
        command := info.command }
    else
      { callId := p.callId
        modelCallId := p.modelCallId
        startedAt := recvTime
        timeoutMS := 0
        command := "" }
  | none =>
    { callId := p.callId
      modelCallId := p.modelCallId
      startedAt := recvTime
      timeoutMS := 0
      command := "" }

/-- applyEvent mirrors the state update of Monitor.ProcessEvent: stamp
last-event time and type, then dispatch on the discriminator. A `none`
payload models a failed json.Unmarshal, which leaves the rest of the
state untouched. -/
def applyEvent (st : State) (ev : AnnotatedEvent) : State :=
  let st1 : State := { st with lastEventAt := ev.recvTime, lastEvType := evTypeString ev }
  if ev.type = "system" then
    if ev.subtype = "init" then
      match ev.initPayload with
      | some sid => { st1 with sessionID := sid }
      | none => st1
    else st1
  else if ev.type = "tool_call" then
    if ev.subtype = "started" then
      match ev.startedPayload with
      | some p => { st1 with openCalls := insertCall st1.openCalls (openCallFor p ev.recvTime) }
      | none => st1
    else if ev.subtype = "completed" then
      match ev.completedPayload with
      | some cid => { st1 with openCalls := removeCall st1.openCalls cid }
      | none => st1
    else st1
  else if ev.type = "result" then
    { st1 with sessionDone := true }
  else st1

/-- processEvent mirrors Monitor.ProcessEvent: update the state, then
return Waiting when open tool calls remain and OK otherwise. -/
def processEvent (m : Monitor) (ev : AnnotatedEvent) : Monitor × Verdict :=
  let m1 : Monitor := { m with state := applyEvent m.state ev }
  if m1.state.openCalls.isEmpty then (m1, Verdict.ok) else (m1, Verdict.waiting)

/-- openCallDetail mirrors the OpenCallDetail snapshot built per open
call inside Monitor.CheckTimeout. -/
def openCallDetail (now : Int) (tool : OpenToolCall) : OpenCallDetail :=
  { callId := tool.callId
    command := tool.command
    elapsedMS := millis (now - tool.startedAt)
    timeoutMS := tool.timeoutMS }

/-- toolExpired mirrors the per-tool deadline test in
Monitor.CheckTimeout: deadline is timeoutMS converted to nanoseconds
plus the grace, replaced by idleTimeout when timeoutMS is zero; the
tool counts as expired unless its elapsed time is at most the
deadline. -/
def toolExpired (m : Monitor) (now : Int) (tool : OpenToolCall) : Bool :=
  let toolElapsed := now - tool.startedAt
  let toolDeadline := if tool.timeoutMS = 0 then m.idleTimeout
                      else tool.timeoutMS * 1000000 + m.toolGrace
  !(decide (toolElapsed ≤ toolDeadline))

/-- checkTimeout mirrors Monitor.CheckTimeout, in state-passing style:
the third component is the monitor the method leaves behind (the method
performs no writes, so it is the receiver unchanged). -/
def checkTimeout (m : Monitor) (now : Int) : Verdict × Reason × Monitor :=
  let idleElapsed := now - m.state.lastEventAt
  let reason : Reason :=
    { idleSilenceMS := millis idleElapsed
      openCallCount := m.state.openCalls.length
      lastEventType := m.state.lastEvType
      openCalls := [] }
  if m.state.sessionDone then (Verdict.ok, reason, m)
  else if m.state.openCalls.isEmpty then
    if idleElapsed > m.idleTimeout then (Verdict.hang, reason, m)
    else (Verdict.ok, reason, m)
  else
    let reason2 : Reason := { reason with openCalls := m.state.openCalls.map (openCallDetail now) }
    if m.state.openCalls.all (fun tool => toolExpired m now tool) then
      (Verdict.hang, reason2, m)
    else (Verdict.waiting, reason2, m)

/-- processEvents folds ProcessEvent over a list of events, as the
orchestrator's select loop does for the events of one turn. -/
def processEvents (m : Monitor) (evs : List AnnotatedEvent) : Monitor :=
  evs.foldl (fun acc ev => (processEvent acc ev).1) m

/-- ParseOracle stands for the outcome of the JSON parses performed on
one raw line: the discriminator fields plus the deep payloads. -/
structure ParseOracle where
  type : String
  subtype : String
  initPayload : Option String
  startedPayload : Option StartedPayload
  completedPayload : Option String
deriving DecidableEq

/-- readerEmit mirrors the per-line body of events.Reader: when the
line parses (the oracle is some), emit an AnnotatedEvent whose raw
field is the verbatim line; when the parse fails, skip the line. -/
def readerEmit (line : String) (now : Int) (parse : Option ParseOracle) :
    Option AnnotatedEvent :=
  match parse with
  | none => none
  | some p =>
    some
      { recvTime := now
        raw := line
        type := p.type
        subtype := p.subtype
        initPayload := p.initPayload
        startedPayload := p.startedPayload
        completedPayload := p.completedPayload }

/-- streamJSONWriteEvent mirrors streamJSON.WriteEvent: the bytes
written to the wrapper's stdout are the event's raw bytes followed by a
single newline. -/
def streamJSONWriteEvent (ev : AnnotatedEvent) : String :=
  ev.raw ++ "\n"

/-- ProcessConfig mirrors process.Config. -/
structure ProcessConfig where
  agentBin : String
  prompt : String
  model : String
  workspace : String
  extraFlags : List String
  force : Bool
  sessionID : String
deriving DecidableEq

/-- buildArgs mirrors process.buildArgs: the cursor-agent argument list
built from the config by successive conditional appends. -/
def buildArgs (cfg : ProcessConfig) : List String :=
  let args0 := ["--print", "--output-format", "stream-json"]
  let args1 := if cfg.sessionID ≠ "" then args0 ++ ["--resume", cfg.sessionID] else args0
  let args2 := if cfg.force then args1 ++ ["--force"] else args1
  let args3 := if cfg.model ≠ "" then args2 ++ ["--model", cfg.model] else args2
  let args4 := if cfg.workspace ≠ "" then args3 ++ ["--workspace", cfg.workspace] else args3
  args4 ++ cfg.extraFlags

/-- initUpdate describes the effect of one event on the monitor's
captured session id: a system/init event whose payload parsed replaces
it, every other event leaves it alone. -/
def initUpdate (ev : AnnotatedEvent) (old : String) : String :=
  if ev.type = "system" ∧ ev.subtype = "init" then
    match ev.initPayload with
    | some sid => sid
    | none => old
  else old

/-- lastInitSessionId folds initUpdate over a turn's events: the session
id carried by the last system/init event whose payload parsed, or the
default when there is none. -/
def lastInitSessionId (evs : List AnnotatedEvent) (dflt : String) : String :=
  evs.foldl (fun acc ev => initUpdate ev acc) dflt

/-- sessionAfterFirstTurn mirrors the capture step of run in
cmd/cursor-wrap/main.go: after a turn over the given events, the turn
result's session id (the monitor's) is adopted when it is non-empty and
no id was held before. -/
def sessionAfterFirstTurn (preSeed : String) (evs : List AnnotatedEvent)
    (idleTimeout toolGrace now0 : Int) : String :=
  let result := (processEvents (newMonitor idleTimeout toolGrace now0) evs).state.sessionID
  if result ≠ "" ∧ preSeed = "" then result else preSeed

lemma applyEvent_lastEventAt (st : State) (ev : AnnotatedEvent) :
    (applyEvent st ev).lastEventAt = ev.recvTime := by
  unfold applyEvent
  repeat' split
  all_goals simp

lemma applyEvent_lastEvType (st : State) (ev : AnnotatedEvent) :
    (applyEvent st ev).lastEvType = evTypeString ev := by
  unfold applyEvent
  repeat' split
  all_goals simp

lemma applyEvent_sessionDone_mono (st : State) (ev : AnnotatedEvent)
    (h : st.sessionDone = true) : (applyEvent st ev).sessionDone = true := by
  unfold applyEvent
  repeat' split
  all_goals simp [h]

lemma applyEvent_sessionID (st : State) (ev : AnnotatedEvent) :
    (applyEvent st ev).sessionID = initUpdate ev st.sessionID := by
  unfold applyEvent initUpdate
  repeat' split
  all_goals simp_all

lemma processEvent_state (m : Monitor) (ev : AnnotatedEvent) :
    (processEvent m ev).1.state = applyEvent m.state ev := by
  unfold processEvent
  dsimp only
  split <;> rfl

lemma processEvent_thresholds (m : Monitor) (ev : AnnotatedEvent) :
    (processEvent m ev).1.idleTimeout = m.idleTimeout ∧
    (processEvent m ev).1.toolGrace = m.toolGrace := by
  unfold processEvent
  dsimp only
  split <;> exact ⟨rfl, rfl⟩

lemma processEvent_verdict_eq (m : Monitor) (ev : AnnotatedEvent) :
    (processEvent m ev).2 =
      if (applyEvent m.state ev).openCalls.isEmpty then Verdict.ok else Verdict.waiting := by
  unfold processEvent
  dsimp only
  split <;> simp_all

lemma toolExpired_iff (m : Monitor) (now : Int) (tool : OpenToolCall) :
    toolExpired m now tool = true ↔
      (if tool.timeoutMS = 0 then m.idleTimeout
       else tool.timeoutMS * 1000000 + m.toolGrace) < now - tool.startedAt := by
  unfold toolExpired
  dsimp only
  simp only [Bool.not_eq_true', decide_eq_false_iff_not, not_le]

lemma checkTimeout_done (m : Monitor) (now : Int) (hdone : m.state.sessionDone = true) :
    checkTimeout m now =
      (Verdict.ok,
       { idleSilenceMS := millis (now - m.state.lastEventAt)
         openCallCount := m.state.openCalls.length
         lastEventType := m.state.lastEvType
         openCalls := [] },
       m) := by
  unfold checkTimeout
  dsimp only
  rw [if_pos hdone]

lemma checkTimeout_noopen (m : Monitor) (now : Int)
    (hdone : m.state.sessionDone = false) (hopen : m.state.openCalls = []) :
    checkTimeout m now =
      (if m.idleTimeout < now - m.state.lastEventAt then Verdict.hang else Verdict.ok,
       { idleSilenceMS := millis (now - m.state.lastEventAt)
         openCallCount := m.state.openCalls.length
         lastEventType := m.state.lastEvType
         openCalls := [] },
       m) := by
  unfold checkTimeout
  dsimp only
  rw [hdone, hopen]
  simp only [List.isEmpty_nil, if_true, if_false, Bool.false_eq_true, gt_iff_lt]
  split <;> simp [hopen]

lemma checkTimeout_open (m : Monitor) (now : Int)
    (hdone : m.state.sessionDone = false) (hopen : m.state.openCalls ≠ []) :
    checkTimeout m now =
      (if m.state.openCalls.all (fun tool => toolExpired m now tool) then Verdict.hang
       else Verdict.waiting,
       { idleSilenceMS := millis (now - m.state.lastEventAt)
         openCallCount := m.state.openCalls.length
         lastEventType := m.state.lastEvType
         openCalls := m.state.openCalls.map (openCallDetail now) },
       m) := by
  unfold checkTimeout
  dsimp only
  rw [hdone]
  have hempty : m.state.openCalls.isEmpty = false := by
    rcases h : m.state.openCalls with _ | ⟨a, l⟩
    · exact absurd h hopen
    · rfl
  rw [hempty]
  simp only [Bool.false_eq_true, if_false]
  split <;> rfl

lemma buildArgs_split (cfg : ProcessConfig) :
    buildArgs cfg = ["--print", "--output-format", "stream-json"]
      ++ (if cfg.sessionID ≠ "" then ["--resume", cfg.sessionID] else [])
      ++ (if cfg.force then ["--force"] else [])
      ++ (if cfg.model ≠ "" then ["--model", cfg.model] else [])
      ++ (if cfg.workspace ≠ "" then ["--workspace", cfg.workspace] else [])
      ++ cfg.extraFlags := by
  unfold buildArgs
  dsimp only
  split_ifs <;> simp

lemma processEvents_sessionID (evs : List AnnotatedEvent) (m : Monitor) :
    (processEvents m evs).state.sessionID = lastInitSessionId evs m.state.sessionID := by
  induction evs generalizing m with
  | nil => rfl
  | cons ev rest ih =>
    unfold processEvents lastInitSessionId
    simp only [List.foldl_cons]
    have h1 := ih (processEvent m ev).1
    unfold processEvents lastInitSessionId at h1
    rw [h1, processEvent_state, applyEvent_sessionID]

/-- A shell tool call with a declared 10 s timeout, used as a fixture. -/
def toolC1 : OpenToolCall :=
  { callId := "c1"
    modelCallId := "m1"
    startedAt := 0
    timeoutMS := 10000
    command := "sleep 5" }

/-- A monitor with one open shell call, 60 s idle timeout and 30 s grace. -/
def monOneCall : Monitor :=
  { idleTimeout := 60000000000
    toolGrace := 30000000000
    state :=
      { openCalls := [toolC1]
        lastEventAt := 0
        lastEvType := "tool_call/started"
        sessionDone := false
        sessionID := "S1" } }

/-- A monitor with no open calls whose last event was at instant 0. -/
def monIdle : Monitor :=
  { idleTimeout := 60000000000
    toolGrace := 30000000000
    state :=
      { openCalls := []
        lastEventAt := 0
        lastEvType := "thinking/completed"
        sessionDone := false
        sessionID := "S1" } }

/-- An open tool call whose declared timeout is 0 (unknown). -/
def toolZero : OpenToolCall :=
  { callId := "cz"
    modelCallId := "mz"
    startedAt := 0
    timeoutMS := 0
    command := "sleep 999" }

/-- A monitor whose idle timeout (1 s) is far below its grace (30 s),
holding a single open call with declared timeout 0. -/
def monShortIdle : Monitor :=
  { idleTimeout := 1000000000
    toolGrace := 30000000000
    state :=
      { openCalls := [toolZero]
        lastEventAt := 0
        lastEvType := "tool_call/started"
        sessionDone := false
        sessionID := "S1" } }

/-- C1: with the session not done and at least one open tool call,
CheckTimeout records every open call with its elapsed milliseconds and
declared timeout in the Reason, returns Hang exactly when every open
tool's elapsed time exceeds its deadline (declared timeout plus grace,
with the idle timeout as the deadline for a zero declared timeout), and
returns Waiting otherwise. -/
theorem checkTimeout_openCalls_spec (m : Monitor) (now : Int)
    (hdone : m.state.sessionDone = false) (hopen : m.state.openCalls ≠ []) :
    (checkTimeout m now).2.1.openCalls = m.state.openCalls.map (openCallDetail now) ∧
    ((checkTimeout m now).1 = Verdict.hang ↔
      ∀ tool ∈ m.state.openCalls,
        now - tool.startedAt >
          (if tool.timeoutMS = 0 then m.idleTimeout
           else tool.timeoutMS * 1000000 + m.toolGrace)) ∧
    ((checkTimeout m now).1 = Verdict.hang ∨ (checkTimeout m now).1 = Verdict.waiting) := by
  have hv : (checkTimeout m now).1 =
      (if m.state.openCalls.all (fun tool => toolExpired m now tool) then Verdict.hang
       else Verdict.waiting) := by
    rw [checkTimeout_open m now hdone hopen]
  have hr : (checkTimeout m now).2.1.openCalls
      = m.state.openCalls.map (openCallDetail now) := by
    rw [checkTimeout_open m now hdone hopen]
  refine ⟨hr, ?_, ?_⟩
  · rw [hv]
    constructor
    · intro h tool htool
      rw [gt_iff_lt, ← toolExpired_iff]
      by_cases hc : (m.state.openCalls.all fun tool => toolExpired m now tool) = true
      · exact List.all_eq_true.mp hc tool htool
      · rw [if_neg hc] at h
        exact absurd h (by simp)
    · intro hall
      have hc : (m.state.openCalls.all fun tool => toolExpired m now tool) = true := by
        rw [List.all_eq_true]
        intro tool htool
        rw [toolExpired_iff]
        exact hall tool htool
      rw [if_pos hc]
  · rw [hv]
    split
    · exact Or.inl rfl
    · exact Or.inr rfl

/-- C1 witness: the one open call (10 s declared timeout) at 45 s of
elapsed time is past its 40 s deadline, so the verdict is Hang and the
Reason lists the call. -/
theorem checkTimeout_openCalls_spec_witness :
    (monOneCall.state.sessionDone = false ∧ monOneCall.state.openCalls ≠ []) ∧
    ((checkTimeout monOneCall 45000000000).2.1.openCalls
        = monOneCall.state.openCalls.map (openCallDetail 45000000000) ∧
     ((checkTimeout monOneCall 45000000000).1 = Verdict.hang ↔
       ∀ tool ∈ monOneCall.state.openCalls,
         45000000000 - tool.startedAt >
           (if tool.timeoutMS = 0 then monOneCall.idleTimeout
            else tool.timeoutMS * 1000000 + monOneCall.toolGrace)) ∧
     ((checkTimeout monOneCall 45000000000).1 = Verdict.hang ∨
      (checkTimeout monOneCall 45000000000).1 = Verdict.waiting)) :=
  ⟨⟨rfl, by decide⟩,
   checkTimeout_openCalls_spec monOneCall 45000000000 rfl (by decide)⟩

/-- C2: with the session not done and no open tool calls, CheckTimeout
returns OK at every instant up to the last event time plus the idle
timeout and Hang strictly after it; a newly constructed monitor's last
event time is the clock's value at construction. -/
theorem checkTimeout_idle_boundary (m : Monitor) (t : Int)
    (hdone : m.state.sessionDone = false) (hopen : m.state.openCalls = []) :
    ((checkTimeout m t).1 = Verdict.ok ↔ t ≤ m.state.lastEventAt + m.idleTimeout) ∧
    ((checkTimeout m t).1 = Verdict.hang ↔ m.state.lastEventAt + m.idleTimeout < t) ∧
    (∀ i g n : Int, (newMonitor i g n).state.lastEventAt = n) := by
  rw [checkTimeout_noopen m t hdone hopen]
  refine ⟨?_, ?_, fun i g n => rfl⟩
  · split
    · next h =>
      constructor
      · intro hv
        exact absurd hv (by simp)
      · intro hle
        exact absurd h (by omega)
    · next h =>
      constructor
      · intro _
        omega
      · intro _
        rfl
  · split
    · next h =>
      constructor
      · intro _
        omega
      · intro _
        rfl
    · next h =>
      constructor
      · intro hv
        exact absurd hv (by simp)
      · intro hlt
        exact absurd h (by omega)

/-- C2 witness: with last event at 0 and a 60 s idle timeout, instant
60 s is still OK and instant 61 s would be past the boundary. -/
theorem checkTimeout_idle_boundary_witness :
    (monIdle.state.sessionDone = false ∧ monIdle.state.openCalls = []) ∧
    (((checkTimeout monIdle 60000000000).1 = Verdict.ok ↔
        (60000000000 : Int) ≤ monIdle.state.lastEventAt + monIdle.idleTimeout) ∧
     ((checkTimeout monIdle 60000000000).1 = Verdict.hang ↔
        monIdle.state.lastEventAt + monIdle.idleTimeout < 60000000000) ∧
     (∀ i g n : Int, (newMonitor i g n).state.lastEventAt = n)) :=
  ⟨⟨rfl, rfl⟩, checkTimeout_idle_boundary monIdle 60000000000 rfl rfl⟩

/-- C3 counterexample: with idle timeout 1 s and grace 30 s, the sole
open call has declared timeout 0 and elapsed 2 s, so it satisfies
elapsed ≤ timeout + grace, yet CheckTimeout returns Hang because the
code uses the idle timeout (1 s) as the deadline when the declared
timeout is 0. -/
theorem checkTimeout_zero_timeout_hang :
    (∃ tool ∈ monShortIdle.state.openCalls,
       2000000000 - tool.startedAt ≤ tool.timeoutMS * 1000000 + monShortIdle.toolGrace) ∧
    (checkTimeout monShortIdle 2000000000).1 = Verdict.hang :=
  ⟨⟨toolZero, by decide, by decide⟩, by decide⟩

/-- C3 amended: CheckTimeout never returns Hang while some open call is
within its own deadline, where the deadline is the declared timeout
plus the grace for a non-zero declared timeout and the idle timeout for
a zero one. -/
theorem checkTimeout_no_hang_while_tool_live (m : Monitor) (now : Int)
    (h : ∃ tool ∈ m.state.openCalls,
          now - tool.startedAt ≤
            (if tool.timeoutMS = 0 then m.idleTimeout
             else tool.timeoutMS * 1000000 + m.toolGrace)) :
    (checkTimeout m now).1 ≠ Verdict.hang := by
  obtain ⟨tool, htool, hle⟩ := h
  have hopen : m.state.openCalls ≠ [] := by
    intro e
    rw [e] at htool
    exact absurd htool (List.not_mem_nil tool)
  rcases hdone : m.state.sessionDone with _ | _
  · rw [checkTimeout_open m now hdone hopen]
    split
    · next hall =>
      have := toolExpired_iff m now tool |>.mp (List.all_eq_true.mp hall tool htool)
      omega
    · simp
  · rw [checkTimeout_done m now hdone]
    simp

/-- C3 amended witness: the zero-timeout call 0.5 s after start is
within its idle-timeout deadline (1 s), and the verdict is not Hang. -/
theorem checkTimeout_no_hang_while_tool_live_witness :
    (∃ tool ∈ monShortIdle.state.openCalls,
       500000000 - tool.startedAt ≤
         (if tool.timeoutMS = 0 then monShortIdle.idleTimeout
          else tool.timeoutMS * 1000000 + monShortIdle.toolGrace)) ∧
    (checkTimeout monShortIdle 500000000).1 ≠ Verdict.hang :=
  ⟨⟨toolZero, by decide, by decide⟩,
   checkTimeout_no_hang_while_tool_live monShortIdle 500000000
     ⟨toolZero, by decide, by decide⟩⟩

/-- An incoming tool_call/started event for a shell call (1 s declared
timeout), received at instant 1. -/
def evStartedFx : AnnotatedEvent :=
  { recvTime := 1
    raw := ""
    type := "tool_call"
    subtype := "started"
    initPayload := none
    startedPayload :=
      some
        { callId := "c1"
          modelCallId := "m1"
          toolInfo :=
            some
              { toolType := "shellToolCall"
                command := "sleep 999"
                timeoutMS := 1000
                path := "" } }
    completedPayload := none }

/-- A result event received at instant 2. -/
def evResultFx : AnnotatedEvent :=
  { recvTime := 2
    raw := ""
    type := "result"
    subtype := "success"
    initPayload := none
    startedPayload := none
    completedPayload := none }

/-- A user event received at instant 3. -/
def evUserFx : AnnotatedEvent :=
  { recvTime := 3
    raw := ""
    type := "user"
    subtype := ""
    initPayload := none
    startedPayload := none
    completedPayload := none }

/-- The monitor after a tool starts and a result event arrives while the
tool call is still open. -/
def monDoneOpenCall : Monitor :=
  processEvents (newMonitor 60000000000 30000000000 0) [evStartedFx, evResultFx]

/-- C4 counterexample: after the result event, session_done is true but
a tool call is still recorded as open, and ProcessEvent on a further
event returns Waiting, not OK. -/
theorem processEvent_after_done_not_ok :
    monDoneOpenCall.state.sessionDone = true ∧
    (processEvent monDoneOpenCall evUserFx).2 = Verdict.waiting ∧
    Verdict.waiting ≠ Verdict.ok :=
  ⟨by decide, by decide, by decide⟩

/-- C4 amended: once session_done is true it stays true across any
further event, every CheckTimeout verdict is OK regardless of timing,
and ProcessEvent never returns Hang — but it returns Waiting rather
than OK whenever tool calls remain open after the update. -/
theorem monitor_terminal_behaviour (m : Monitor) (hdone : m.state.sessionDone = true) :
    (∀ now : Int, (checkTimeout m now).1 = Verdict.ok) ∧
    (∀ ev : AnnotatedEvent,
      (processEvent m ev).1.state.sessionDone = true ∧
      (processEvent m ev).2 ≠ Verdict.hang ∧
      ((processEvent m ev).2 = Verdict.waiting ↔
        (processEvent m ev).1.state.openCalls ≠ [])) := by
  constructor
  · intro now
    rw [checkTimeout_done m now hdone]
  · intro ev
    refine ⟨?_, ?_, ?_⟩
    · rw [processEvent_state]
      exact applyEvent_sessionDone_mono m.state ev hdone
    · rw [processEvent_verdict_eq]
      split <;> simp
    · rw [processEvent_verdict_eq, processEvent_state]
      rcases h : (applyEvent m.state ev).openCalls with _ | ⟨a, l⟩ <;> simp [h]

/-- C4 amended witness: the fixture monitor has session_done true, so
its CheckTimeout verdicts are all OK and its ProcessEvent verdicts are
never Hang. -/
theorem monitor_terminal_behaviour_witness :
    monDoneOpenCall.state.sessionDone = true ∧
    ((∀ now : Int, (checkTimeout monDoneOpenCall now).1 = Verdict.ok) ∧
     (∀ ev : AnnotatedEvent,
       (processEvent monDoneOpenCall ev).1.state.sessionDone = true ∧
       (processEvent monDoneOpenCall ev).2 ≠ Verdict.hang ∧
       ((processEvent monDoneOpenCall ev).2 = Verdict.waiting ↔
         (processEvent monDoneOpenCall ev).1.state.openCalls ≠ []))) :=
  ⟨by decide, monitor_terminal_behaviour monDoneOpenCall (by decide)⟩

/-- C5: ProcessEvent only returns OK or Waiting, returns Waiting exactly
when open tool calls remain after the state update, and always stamps
the last event time with the receive time and the last event type with
"type" or "type/subtype". -/
theorem processEvent_liveness_spec (m : Monitor) (ev : AnnotatedEvent) :
    ((processEvent m ev).2 = Verdict.ok ∨ (processEvent m ev).2 = Verdict.waiting) ∧
    ((processEvent m ev).2 = Verdict.waiting ↔ (processEvent m ev).1.state.openCalls ≠ []) ∧
    (processEvent m ev).1.state.lastEventAt = ev.recvTime ∧
    (processEvent m ev).1.state.lastEvType =
      (if ev.subtype = "" then ev.type else ev.type ++ "/" ++ ev.subtype) := by
  refine ⟨?_, ?_, ?_, ?_⟩
  · rw [processEvent_verdict_eq]
    split
    · exact Or.inl rfl
    · exact Or.inr rfl
  · rw [processEvent_verdict_eq, processEvent_state]
    rcases h : (applyEvent m.state ev).openCalls with _ | ⟨a, l⟩ <;> simp [h]
  · rw [processEvent_state, applyEvent_lastEventAt]
  · rw [processEvent_state, applyEvent_lastEvType]
    unfold evTypeString
    split_ifs with h1 h2 <;> simp_all

/-- C6: a tool_call/completed event whose call_id parses removes exactly
the open calls with that id (at most one, keys being unique); when no
open call matches, the table is unchanged and ProcessEvent returns
normally with no error. -/
theorem processEvent_completed_removal (m : Monitor) (ev : AnnotatedEvent) (cid : String)
    (ht : ev.type = "tool_call") (hs : ev.subtype = "completed")
    (hp : ev.completedPayload = some cid) :
    (processEvent m ev).1.state.openCalls
        = m.state.openCalls.filter (fun c => !(c.callId == cid)) ∧
    ((∀ c ∈ m.state.openCalls, ¬ c.callId = cid) →
      (processEvent m ev).1.state.openCalls = m.state.openCalls) := by
  have h1 : (processEvent m ev).1.state.openCalls = removeCall m.state.openCalls cid := by
    rw [processEvent_state]
    unfold applyEvent
    dsimp only
    rw [ht, hs, hp]
    simp
  constructor
  · rw [h1]
    rfl
  · intro hall
    rw [h1]
    unfold removeCall
    apply List.filter_eq_self.mpr
    intro c hc
    simpa using hall c hc

/-- A tool_call/completed event for call_id c2, received at instant 7. -/
def evCompletedFx : AnnotatedEvent :=
  { recvTime := 7
    raw := ""
    type := "tool_call"
    subtype := "completed"
    initPayload := none
    startedPayload := none
    completedPayload := some "c2" }

/-- C6 witness: a completed event for call_id c2 arriving while only c1
is open leaves the open-call table unchanged. -/
theorem processEvent_completed_removal_witness :
    (evCompletedFx.type = "tool_call" ∧ evCompletedFx.subtype = "completed" ∧
     evCompletedFx.completedPayload = some "c2") ∧
    ((processEvent monOneCall evCompletedFx).1.state.openCalls
        = monOneCall.state.openCalls.filter (fun c => !(c.callId == "c2")) ∧
     ((∀ c ∈ monOneCall.state.openCalls, ¬ c.callId = "c2") →
       (processEvent monOneCall evCompletedFx).1.state.openCalls
         = monOneCall.state.openCalls)) :=
  ⟨⟨rfl, rfl, rfl⟩,
   processEvent_completed_removal monOneCall evCompletedFx "c2" rfl rfl rfl⟩

/-- C7: when a line parses as JSON, the reader emits an event whose raw
bytes are the line verbatim, and the pass-through formatter writes
exactly those raw bytes followed by a single newline. -/
theorem passthrough_raw_preservation (line : String) (now : Int) (p : ParseOracle)
    (ev : AnnotatedEvent) (h : readerEmit line now (some p) = some ev) :
    ev.raw = line ∧ streamJSONWriteEvent ev = line ++ "\n" := by
  simp only [readerEmit, Option.some.injEq] at h
  subst h
  exact ⟨rfl, rfl⟩

/-- The parse oracle of a well-formed assistant line. -/
def assistantOracle : ParseOracle :=
  { type := "assistant"
    subtype := ""
    initPayload := none
    startedPayload := none
    completedPayload := none }

/-- The annotated event the reader emits for the assistant line. -/
def assistantEvent : AnnotatedEvent :=
  { recvTime := 5
    raw := "\x7b\"type\":\"assistant\"\x7d"
    type := "assistant"
    subtype := ""
    initPayload := none
    startedPayload := none
    completedPayload := none }

/-- C7 witness: a concrete assistant line flows through the reader and
the pass-through formatter byte-identically, gaining one newline. -/
theorem passthrough_raw_preservation_witness :
    readerEmit "\x7b\"type\":\"assistant\"\x7d" 5 (some assistantOracle) = some assistantEvent ∧
    (assistantEvent.raw = "\x7b\"type\":\"assistant\"\x7d" ∧
     streamJSONWriteEvent assistantEvent = "\x7b\"type\":\"assistant\"\x7d" ++ "\n") :=
  ⟨rfl, passthrough_raw_preservation "\x7b\"type\":\"assistant\"\x7d" 5 assistantOracle
          assistantEvent rfl⟩

/-- A system/init event carrying session id S1, received at instant 1. -/
def evInitS1 : AnnotatedEvent :=
  { recvTime := 1
    raw := ""
    type := "system"
    subtype := "init"
    initPayload := some "S1"
    startedPayload := none
    completedPayload := none }

/-- A second system/init event carrying a different session id S2. -/
def evInitS2 : AnnotatedEvent :=
  { recvTime := 2
    raw := ""
    type := "system"
    subtype := "init"
    initPayload := some "S2"
    startedPayload := none
    completedPayload := none }

/-- A first turn that observes two system/init events with differing
session ids. -/
def twoInitTurn : List AnnotatedEvent := [evInitS1, evInitS2]

/-- C8 counterexample: over a first turn containing init events with
session ids S1 then S2, the id the session loop adopts for resumption
is S2, not the first-observed S1. -/
theorem session_capture_not_first :
    sessionAfterFirstTurn "" twoInitTurn 60000000000 30000000000 0 ≠ "S1" ∧
    sessionAfterFirstTurn "" twoInitTurn 60000000000 30000000000 0 = "S2" :=
  ⟨by decide, by decide⟩

/-- C8 amended: each system/init observation overwrites the monitor's
session id, so the id the session loop adopts after the first turn —
and passes to --resume on the next spawn — is the one carried by the
last system/init event of the turn whose payload parsed. -/
theorem session_resume_uses_last_init (i g n : Int) (evs : List AnnotatedEvent)
    (cfg : ProcessConfig)
    (hsid : cfg.sessionID = sessionAfterFirstTurn "" evs i g n)
    (hne : lastInitSessionId evs "" ≠ "") :
    cfg.sessionID = lastInitSessionId evs "" ∧
    buildArgs cfg =
      ["--print", "--output-format", "stream-json", "--resume", lastInitSessionId evs ""]
        ++ (if cfg.force then ["--force"] else [])
        ++ (if cfg.model ≠ "" then ["--model", cfg.model] else [])
        ++ (if cfg.workspace ≠ "" then ["--workspace", cfg.workspace] else [])
        ++ cfg.extraFlags := by
  have hlast : sessionAfterFirstTurn "" evs i g n = lastInitSessionId evs "" := by
    unfold sessionAfterFirstTurn
    dsimp only
    rw [processEvents_sessionID]
    have hz : (newMonitor i g n).state.sessionID = "" := rfl
    rw [hz]
    split_ifs with hcond
    · rfl
    · exact absurd ⟨hne, rfl⟩ hcond
  have hc : cfg.sessionID = lastInitSessionId evs "" := hsid.trans hlast
  refine ⟨hc, ?_⟩
  rw [buildArgs_split, hc]
  rw [if_pos hne]
  simp

/-- The process configuration the session loop builds for the second
turn after observing the two-init first turn. -/
def cfgSecondTurn : ProcessConfig :=
  { agentBin := "cursor-agent"
    prompt := "continue"
    model := ""
    workspace := ""
    extraFlags := []
    force := false
    sessionID := sessionAfterFirstTurn "" twoInitTurn 60000000000 30000000000 0 }

/-- C8 amended witness: after the two-init first turn the second spawn
resumes with S2, the last observed init id. -/
theorem session_resume_uses_last_init_witness :
    (cfgSecondTurn.sessionID = sessionAfterFirstTurn "" twoInitTurn 60000000000 30000000000 0 ∧
     lastInitSessionId twoInitTurn "" ≠ "") ∧
    (cfgSecondTurn.sessionID = lastInitSessionId twoInitTurn "" ∧
     buildArgs cfgSecondTurn =
       ["--print", "--output-format", "stream-json", "--resume", lastInitSessionId twoInitTurn ""]
         ++ (if cfgSecondTurn.force then ["--force"] else [])
         ++ (if cfgSecondTurn.model ≠ "" then ["--model", cfgSecondTurn.model] else [])
         ++ (if cfgSecondTurn.workspace ≠ "" then ["--workspace", cfgSecondTurn.workspace] else [])
         ++ cfgSecondTurn.extraFlags) :=
  ⟨⟨rfl, by decide⟩,
   session_resume_uses_last_init 60000000000 30000000000 0 twoInitTurn cfgSecondTurn rfl
     (by decide)⟩

/-- C9: the argument list built for the agent is exactly the three fixed
flags, then --resume with the id when resuming, then --force when
forced, then --model and --workspace when non-empty, then the extra
args in order. -/
theorem buildArgs_argument_order (cfg : ProcessConfig) :
    buildArgs cfg = ["--print", "--output-format", "stream-json"]
      ++ (if cfg.sessionID ≠ "" then ["--resume", cfg.sessionID] else [])
      ++ (if cfg.force then ["--force"] else [])
      ++ (if cfg.model ≠ "" then ["--model", cfg.model] else [])
      ++ (if cfg.workspace ≠ "" then ["--workspace", cfg.workspace] else [])
      ++ cfg.extraFlags :=
  buildArgs_split cfg

/-- C10: CheckTimeout leaves the monitor — its open-call table, last
event time and type, session_done flag and session id — unchanged, and
calling it again at the same instant on the state it leaves behind
yields the same verdict and reason. -/
theorem checkTimeout_readonly (m : Monitor) (now : Int) :
    (checkTimeout m now).2.2 = m ∧
    (checkTimeout m now).2.2.state.openCalls = m.state.openCalls ∧
    (checkTimeout m now).2.2.state.lastEventAt = m.state.lastEventAt ∧
    (checkTimeout m now).2.2.state.lastEvType = m.state.lastEvType ∧
    (checkTimeout m now).2.2.state.sessionDone = m.state.sessionDone ∧
    (checkTimeout m now).2.2.state.sessionID = m.state.sessionID ∧
    checkTimeout (checkTimeout m now).2.2 now = checkTimeout m now := by
  have h : (checkTimeout m now).2.2 = m := by
    unfold checkTimeout
    dsimp only
    split_ifs <;> rfl
  exact ⟨h, by rw [h], by rw [h], by rw [h], by rw [h], by rw [h], by rw [h]⟩

end CursorWrap
